import Mathlib

/-!
Verification of the voice-assistant order-status IVR core.

This file gives a shallow embedding of the conversation engine of
`app.py`, the heuristic order-number validator (`validate_order_number`),
the delivery estimator (`calculate_production_delivery_dates`), the
overdue check (`services.check_delivery_overdue`), the AfterBuy lookup
pipeline (`get_order_from_afterbuy` together with the response handling
of `afterbuy_client.py`), and the duplicate-email guard of
`handle_transcription`.

Dates are modelled as proleptic-Gregorian day ordinals (day 1 is
0001-01-01), exactly as the CPython `datetime` module represents them; the
conversion and ISO-calendar functions below are ports of the CPython
functions `_ymd2ord`, `_ord2ymd`, `_isoweek1monday` and `date.isocalendar`.
Python `None` values are modelled with `Option`; the character classes
used by the validator (`isdigit`, `isalpha`, `lower`, `strip`) are
modelled for the ASCII alphabet.
-/

/-- Leap-year test, as CPython `_is_leap`. -/
def isLeapYear (y : Nat) : Bool :=
  y % 4 == 0 && (y % 100 != 0 || y % 400 == 0)

/-- Days in a month, as CPython `_days_in_month`. -/
def daysInMonth (y m : Nat) : Nat :=
  if m == 2 then (if isLeapYear y then 29 else 28)
  else if m == 4 || m == 6 || m == 9 || m == 11 then 30
  else 31

/-- Cumulative days before a month in a non-leap year,
CPython `_DAYS_BEFORE_MONTH` (indexed by month 1..12). -/
def daysBeforeMonthTable (m : Nat) : Nat :=
  match m with
  | 1 => 0 | 2 => 31 | 3 => 59 | 4 => 90 | 5 => 120 | 6 => 151
  | 7 => 181 | 8 => 212 | 9 => 243 | 10 => 273 | 11 => 304 | _ => 334

/-- Days before month `m` of year `y`, as CPython `_days_before_month`. -/
def daysBeforeMonth (y m : Nat) : Nat :=
  daysBeforeMonthTable m + (if m > 2 && isLeapYear y then 1 else 0)

/-- Day ordinal of a calendar date (0001-01-01 is day 1),
as CPython `_ymd2ord`. -/
def ymd2ord (y m d : Nat) : Nat :=
  let n := y - 1
  (365 * n + n / 4 + n / 400 - n / 100) + daysBeforeMonth y m + d

/-- Days in 400 / 100 / 4 years, CPython `_DI400Y`, `_DI100Y`, `_DI4Y`. -/
def DI400Y : Nat := 146097
def DI100Y : Nat := 36524
def DI4Y : Nat := 1461

/-- Inverse of `ymd2ord`, a port of CPython `_ord2ymd`. -/
def ord2ymd (ord : Nat) : Nat × Nat × Nat :=
  let n := ord - 1
  let n400 := n / DI400Y
  let n := n % DI400Y
  let year0 := n400 * 400 + 1
  let n100 := n / DI100Y
  let n := n % DI100Y
  let n4 := n / DI4Y
  let n := n % DI4Y
  let n1 := n / 365
  let n := n % 365
  let year := year0 + n100 * 100 + n4 * 4 + n1
  if n1 == 4 || n100 == 4 then
    (year - 1, 12, 31)
  else
    let leap := n1 == 3 && (n4 != 24 || n100 == 3)
    let month := (n + 50) / 32
    let preceding := daysBeforeMonthTable month + (if month > 2 && leap then 1 else 0)
    if preceding > n then
      let month := month - 1
      let preceding := preceding - (daysInMonth' month leap)
      (year, month, n - preceding + 1)
    else
      (year, month, n - preceding + 1)
where
  daysInMonth' (m : Nat) (leap : Bool) : Nat :=
    if m == 2 then (if leap then 29 else 28)
    else if m == 4 || m == 6 || m == 9 || m == 11 then 30
    else 31

/-- Year component of a day ordinal (the `date.year` attribute). -/
def yearOfOrd (ord : Nat) : Nat := (ord2ymd ord).1

/-- Ordinal of the Monday starting ISO week 1 of year `y`,
a port of CPython `_isoweek1monday` (may fall in year `y - 1`). -/
def isoweek1monday (y : Nat) : Int :=
  let firstday : Int := (ymd2ord y 1 1 : Nat)
  let firstweekday := (firstday + 6) % 7
  let week1monday := firstday - firstweekday
  if firstweekday > 3 then week1monday + 7 else week1monday

/-- ISO calendar (year, week) of a day ordinal,
a port of CPython `date.isocalendar` (weekday component dropped). -/
def isocalendarOf (ord : Nat) : Nat × Nat :=
  let year := yearOfOrd ord
  let today : Int := (ord : Nat)
  let week1monday := isoweek1monday year
  let week := (today - week1monday).ediv 7
  if week < 0 then
    let year := year - 1
    let week1monday := isoweek1monday year
    let week := (today - week1monday).ediv 7
    (year, week.toNat + 1)
  else if week >= 52 && today >= isoweek1monday (year + 1) then
    (year + 1, 1)
  else
    (year, week.toNat + 1)

/-- Zero-padded two-digit rendering (strftime `%d` / `%m`). -/
def pad2 (n : Nat) : String :=
  if n < 10 then "0" ++ toString n else toString n

/-- Zero-padded four-digit rendering (strftime `%Y` for years up to 9999). -/
def pad4 (n : Nat) : String :=
  if n < 10 then "000" ++ toString n
  else if n < 100 then "00" ++ toString n
  else if n < 1000 then "0" ++ toString n
  else toString n

/-- strftime `"%d.%m.%Y"` of a day ordinal. -/
def formatDMY (ord : Nat) : String :=
  let ymd := ord2ymd ord
  pad2 ymd.2.2 ++ "." ++ pad2 ymd.2.1 ++ "." ++ pad4 ymd.1

/-- strftime `"%Y-%m-%d"` of a day ordinal. -/
def formatYMD (ord : Nat) : String :=
  let ymd := ord2ymd ord
  pad4 ymd.1 ++ "-" ++ pad2 ymd.2.1 ++ "-" ++ pad2 ymd.2.2

/-- Split a character list at every occurrence of `sep`
(the single-character case of Python `str.split(sep)`). -/
def splitOnChar (sep : Char) : List Char → List (List Char)
  | [] => [[]]
  | c :: rest =>
    match splitOnChar sep rest with
    | h :: t => if c == sep then [] :: h :: t else (c :: h) :: t
    | [] => [[c]]

/-- Split a string at every occurrence of the character `sep`. -/
def splitStrOn (sep : Char) (s : String) : List String :=
  (splitOnChar sep s.toList).map String.mk

/-- Numeric value of a nonempty all-digit string. -/
def digitsVal (s : String) : Option Nat :=
  if s.toList.length > 0 && s.toList.all Char.isDigit then
    some (s.toList.foldl (fun acc c => acc * 10 + (c.toNat - 48)) 0)
  else none

/-- A day/month field in strptime `%d` / `%m` style: one or two digits. -/
def fieldNum2 (s : String) : Option Nat :=
  if s.toList.length == 1 || s.toList.length == 2 then digitsVal s else none

/-- A year field in strptime `%Y` style: exactly four digits. -/
def fieldNum4 (s : String) : Option Nat :=
  if s.toList.length == 4 then digitsVal s else none

/-- Calendar validity check performed by the `datetime` constructor;
returns the day ordinal when the components form a real date
(years 1..9999, as Python `MINYEAR`/`MAXYEAR`). -/
def mkDateOrd (y m d : Nat) : Option Nat :=
  if 1 ≤ y && y ≤ 9999 && 1 ≤ m && m ≤ 12 && 1 ≤ d && d ≤ daysInMonth y m then
    some (ymd2ord y m d)
  else none

/-- Model of `datetime.strptime(s, "%d.%m.%Y")`, as a day ordinal: two dot-separated
1-2 digit day/month fields in range and a 4-digit year forming a valid date. -/
def strptimeDMY (s : String) : Option Nat :=
  match splitStrOn '.' s with
  | [ds, ms, ys] =>
    match fieldNum2 ds, fieldNum2 ms, fieldNum4 ys with
    | some d, some m, some y =>
      if 1 ≤ d && d ≤ 31 && 1 ≤ m && m ≤ 12 then mkDateOrd y m d else none
    | _, _, _ => none
  | _ => none

/-- Model of `datetime.strptime(s, "%Y-%m-%d")`, as a day ordinal. -/
def strptimeYMD (s : String) : Option Nat :=
  match splitStrOn '-' s with
  | [ys, ms, ds] =>
    match fieldNum4 ys, fieldNum2 ms, fieldNum2 ds with
    | some y, some m, some d =>
      if 1 ≤ d && d ≤ 31 && 1 ≤ m && m ≤ 12 then mkDateOrd y m d else none
    | _, _, _ => none
  | _ => none

example : strptimeDMY "18.10.2025" = some 739542 := by decide
example : strptimeDMY "18.10.2025 16:27:55" = none := by decide
example : strptimeYMD "2026-01-31" = some 739647 := by decide
example : formatDMY 739549 = "25.10.2025" := by decide
example : formatYMD 739647 = "2026-01-31" := by decide
example : isocalendarOf 739614 = (2026, 1) := by decide
example : yearOfOrd 739614 = 2025 := by decide
example : isocalendarOf 739647 = (2026, 5) := by decide

/-- Python `str.strip()` on the character list (whitespace at both ends;
modelled with `Char.isWhitespace`). -/
def pyStripChars (cs : List Char) : List Char :=
  ((cs.dropWhile Char.isWhitespace).reverse.dropWhile Char.isWhitespace).reverse

/-- Python `str.strip()`. -/
def pyStrip (s : String) : String :=
  String.mk (pyStripChars s.toList)

/-- Python `str.lower()` (ASCII letters). -/
def pyLower (s : String) : String :=
  String.mk (s.toList.map Char.toLower)

/-- Does `pre` begin the list `cs`? -/
def leadsWith : List Char → List Char → Bool
  | [], _ => true
  | _ :: _, [] => false
  | a :: as, b :: bs => a == b && leadsWith as bs

/-- Does `needle` occur contiguously inside `hay`? -/
def hasSubList (needle : List Char) : List Char → Bool
  | [] => needle.isEmpty
  | c :: rest => leadsWith needle (c :: rest) || hasSubList needle rest

/-- Python `needle in hay` substring containment. -/
def containsSub (needle hay : String) : Bool :=
  hasSubList needle.toList hay.toList

/-- Python `any(char.isdigit() for char in s)`. -/
def hasDigitChar (s : String) : Bool :=
  s.toList.any Char.isDigit

/-- Python `s.isalpha()`: nonempty and all alphabetic. -/
def pyIsAlpha (s : String) : Bool :=
  !s.toList.isEmpty && s.toList.all Char.isAlpha

/-- The fixed denylist `non_order_words` of `validate_order_number`
(`app.py`), in source order, duplicates included. -/
def non_order_words : List String :=
  ["dry", "season", "episode", "movie", "film", "series", "show",
   "lexington", "drive", "street", "avenue", "road", "boulevard",
   "trocken", "saison", "episode", "film", "serie", "show",
   "straße", "weg", "allee", "platz", "gasse",
   "hello", "hi", "yes", "no", "okay", "ok", "sure", "maybe",
   "hallo", "ja", "nein", "okay", "ok", "sicher", "vielleicht",
   "help", "support", "service", "information", "question",
   "hilfe", "support", "service", "information", "frage",
   "the", "and", "or", "but", "with", "from", "to", "for",
   "der", "die", "das", "und", "oder", "aber", "mit", "von", "zu", "für",
   "street", "avenue", "road", "boulevard", "lane", "court",
   "straße", "weg", "allee", "platz", "gasse", "hof"]

/-- Does a contained denylist word reject `t` (the stripped lowered input)?
Mirrors the word loop of `validate_order_number`: a word that occurs in
`t` rejects when its length is at least 50% of the length of `t`, or
when `t` has no digit and none of the separators `-`, `_`, `.`. -/
def nonOrderWordTriggers (t : String) : Bool :=
  non_order_words.any (fun w =>
    containsSub w t &&
      (2 * w.toList.length ≥ t.toList.length ||
        (!hasDigitChar t &&
          !(containsSub "-" t || containsSub "_" t || containsSub "." t))))

/-- The checks of `validate_order_number` that run on the stripped,
lowered text (the reassigned `order_text` of the source). -/
def validateStripped (t : String) : Bool × String :=
  if nonOrderWordTriggers t then
    (false, "contains_non_order_words")
  else if pyIsAlpha t && t.toList.length > 10 then
    (false, "too_many_letters")
  else if !hasDigitChar t &&
      !(containsSub "-" t || containsSub "_" t ||
        containsSub "." t || containsSub " " t) then
    (false, "no_numbers_or_patterns")
  else
    (true, "valid")

/-- Embedding of `validate_order_number(order_text, language)` from `app.py`:
heuristic classification of a keypad string as a plausible order number,
returning `(is_valid, reason)`. The `language` argument is accepted and
unused, exactly as in the source. -/
def validate_order_number (orderText : String) (language : String) :
    Bool × String :=
  if orderText == "" || (pyStrip orderText).toList.length < 2 then
    (false, "too_short")
  else
    validateStripped (pyLower (pyStrip orderText))

example : validate_order_number "12345" "de" = (true, "valid") := by decide
example : validate_order_number "hello" "de" = (false, "contains_non_order_words") := by decide
example : validate_order_number "131629-15" "de" = (true, "valid") := by decide
example : validate_order_number "a" "de" = (false, "too_short") := by decide
example : validate_order_number "lexingtonavenue" "de" = (false, "contains_non_order_words") := by decide
example : validate_order_number "qqqqqqqqqqq" "de" = (false, "too_many_letters") := by decide
example : validate_order_number "131629" "de" = (true, "valid") := by decide

/-- Split a character list at every character satisfying `p`. -/
def splitOnPred (p : Char → Bool) : List Char → List (List Char)
  | [] => [[]]
  | c :: rest =>
    match splitOnPred p rest with
    | h :: t => if p c then [] :: h :: t else (c :: h) :: t
    | [] => [[c]]

/-- Python `str.split()` with no argument: whitespace-separated tokens,
empties dropped. -/
def pySplitWhitespace (s : String) : List String :=
  ((splitOnPred Char.isWhitespace s.toList).filter (fun t => !t.isEmpty)).map
    String.mk

/-- Embedding of `detect_language(caller_number)` from `services.py`: strip `+` and
spaces, numbers starting with `1` or `44` are English, else German. -/
def detect_language (callerNumber : String) : String :=
  let clean := callerNumber.toList.filter (fun c => c != '+' && c != ' ')
  if leadsWith ['1'] clean then "en"
  else if leadsWith ['4', '4'] clean then "en"
  else "de"

/-- Largest representable Python `date` ordinal (9999-12-31); `date`
arithmetic past it raises `OverflowError`. -/
def maxDateOrd : Nat := ymd2ord 9999 12 31

/-- The result dictionary of `calculate_production_delivery_dates`.
`order_date` is `Option String` because the fallback branch echoes the
(possibly `None`) input value. -/
structure DatesInfo where
  order_date : Option String
  order_date_formatted : String
  production_start_date : String
  production_min_weeks : Nat
  production_max_weeks : Nat
  delivery_week : Nat
  delivery_year : Nat
  delivery_date_start : String
  delivery_date_end : String
  promised_delivery_date : String
deriving Repr, DecidableEq

/-- The per-country `production_weeks` table of
`calculate_production_delivery_dates`, default `(8, 12)`. -/
def production_weeks_table (countryCode : String) : Nat × Nat :=
  if countryCode == "TR" then (6, 10)
  else if countryCode == "CN" then (8, 12)
  else if countryCode == "PL" then (4, 8)
  else if countryCode == "IT" then (4, 8)
  else if countryCode == "DE" then (8, 12)
  else (8, 12)

/-- The date-part extraction and parse of
`calculate_production_delivery_dates`: when the text contains a space
the first whitespace token is taken (an all-space string indexes an
empty list, an exception caught by the fallback, hence `none`), then
`strptime "%d.%m.%Y"`. A `none` input models Python `None` (the `in`
test raises `TypeError`, again caught by the fallback). -/
def parseOrderDateText (orderDateStr : Option String) : Option Nat :=
  match orderDateStr with
  | none => none
  | some s =>
    let datePart :=
      if s.toList.contains ' ' then
        match pySplitWhitespace s with
        | [] => none
        | t :: _ => some t
      else some s
    datePart.bind strptimeDMY

/-- The hardcoded fallback dictionary returned by
`calculate_production_delivery_dates` on any exception. -/
def fallbackDatesInfo (orderDateStr : Option String) : DatesInfo :=
  { order_date := orderDateStr
    order_date_formatted := "22.10.2025"
    production_start_date := "22.10.2025"
    production_min_weeks := 6
    production_max_weeks := 10
    delivery_week := 42
    delivery_year := 2025
    delivery_date_start := "13.10.2025"
    delivery_date_end := "19.10.2025"
    promised_delivery_date := "2025-10-22" }

/-- Embedding of `calculate_production_delivery_dates(order_date_str, country_code)`
from `app.py`: production starts 7 days after the order date, delivery
is production start plus the maximum production weeks plus 2 shipping
weeks; spoken week is the ISO week of the delivery date and the year its
`.year` attribute; the window is the delivery date plus or minus 3 days;
`promised_delivery_date` is the delivery date as `"%Y-%m-%d"`. Any
exception (unparseable date, or `OverflowError` when the window end
passes 9999-12-31) yields the fixed fallback. -/
def calculate_production_delivery_dates (orderDateStr : Option String)
    (countryCode : String) : DatesInfo :=
  match parseOrderDateText orderDateStr with
  | some orderOrd =>
    let weeks := production_weeks_table countryCode
    let productionStart := orderOrd + 7
    let deliveryDate := productionStart + 7 * weeks.2 + 14
    if deliveryDate + 3 ≤ maxDateOrd then
      { order_date := some (formatDMY orderOrd)
        order_date_formatted := formatDMY orderOrd
        production_start_date := formatDMY productionStart
        production_min_weeks := weeks.1
        production_max_weeks := weeks.2
        delivery_week := (isocalendarOf deliveryDate).2
        delivery_year := yearOfOrd deliveryDate
        delivery_date_start := formatDMY (deliveryDate - 3)
        delivery_date_end := formatDMY (deliveryDate + 3)
        promised_delivery_date := formatYMD deliveryDate }
    else fallbackDatesInfo orderDateStr
  | none => fallbackDatesInfo orderDateStr

/-- The `promised_delivery_date` value read by `check_delivery_overdue`:
absent key (or empty order data), a string, a `date` (as ordinal), or a
value of any other type. -/
inductive PromisedValue where
  | absent
  | strVal (s : String)
  | dateVal (ord : Nat)
  | otherVal
deriving Repr, DecidableEq

/-- Embedding of `check_delivery_overdue(order_data)` from `services.py`: false when
the promised date is absent; strings are parsed with `"%Y-%m-%d"`
(unparseable gives false); non-date values give false; otherwise true
iff the promised date is strictly before today. -/
def check_delivery_overdue (promised : PromisedValue) (today : Nat) : Bool :=
  match promised with
  | .absent => false
  | .strVal s =>
    match strptimeYMD s with
    | some d => decide (d < today)
    | none => false
  | .dateVal d => decide (d < today)
  | .otherVal => false

example :
    calculate_production_delivery_dates (some "18.10.2025 16:27:55") "DE" =
      { order_date := some "18.10.2025"
        order_date_formatted := "18.10.2025"
        production_start_date := "25.10.2025"
        production_min_weeks := 8
        production_max_weeks := 12
        delivery_week := 5
        delivery_year := 2026
        delivery_date_start := "28.01.2026"
        delivery_date_end := "03.02.2026"
        promised_delivery_date := "2026-01-31" } := by decide

example :
    (calculate_production_delivery_dates (some "15.09.2025") "DE").delivery_year
      = 2025 := by decide
example :
    (calculate_production_delivery_dates (some "15.09.2025") "DE").delivery_week
      = 1 := by decide
example : check_delivery_overdue (.strVal "2026-01-31") 739648 = true := by decide
example : check_delivery_overdue (.strVal "2026-01-31") 739647 = false := by decide

/-- Buyer block of a parsed AfterBuy order (`BillingAddress`); every
field may be missing in the XML (`_get_text` returns `None`). -/
structure BuyerData where
  first_name : Option String
  last_name : Option String
  country : Option String
deriving Repr, DecidableEq

/-- Payment block of a parsed AfterBuy order (`PaymentInfo`). -/
structure PaymentData where
  payment_date : Option String
  already_paid : Option String
  full_amount : Option String
deriving Repr, DecidableEq

/-- A parsed AfterBuy order dictionary (`_parse_order_response`),
restricted to the fields the conversation engine reads. -/
structure OrderData where
  order_id : Option String
  invoice_number : Option String
  order_date : Option String
  memo : Option String
  buyer : Option BuyerData
  payment : Option PaymentData
deriving Repr, DecidableEq

/-- Body of an AfterBuy HTTP response after the XML parse attempt:
malformed XML, or a document with its optional `CallStatus` text and
the list of `Order` elements (already field-parsed). -/
inductive XmlBody where
  | malformed
  | wellFormed (callStatus : Option String) (orders : List OrderData)
deriving Repr, DecidableEq

/-- Outcome of one AfterBuy HTTP request: a raised
`requests.exceptions.RequestException` (timeout, connection error), or
a response with a status code and a body (`none` models empty
`response.text`). -/
inductive ApiResult where
  | requestException
  | httpResponse (statusCode : Nat) (body : Option XmlBody)
deriving Repr, DecidableEq

/-- Embedding of `AfterbuyClient._parse_order_response`: `None` on malformed XML, on
`CallStatus` different from `"Success"`, and on an empty order list;
otherwise the first order. -/
def parse_order_response (body : XmlBody) : Option OrderData :=
  match body with
  | .malformed => none
  | .wellFormed callStatus orders =>
    if callStatus != some "Success" then none
    else
      match orders with
      | [] => none
      | o :: _ => some o

/-- Shared response handling of `AfterbuyClient.get_order_by_id` and
`get_order_by_invoice_number`: a request exception, a non-200 status
code, and an empty response body all give `None`; otherwise the parsed
first order. -/
def clientLookup (r : ApiResult) : Option OrderData :=
  match r with
  | .requestException => none
  | .httpResponse statusCode body =>
    if statusCode != 200 then none
    else
      match body with
      | none => none
      | some b => parse_order_response b

/-- Embedding of `AfterbuyClient.get_order_by_invoice_number` (response handling). -/
def get_order_by_invoice_number (r : ApiResult) : Option OrderData :=
  clientLookup r

/-- Embedding of `AfterbuyClient.get_order_by_id` (response handling). -/
def get_order_by_id (r : ApiResult) : Option OrderData :=
  clientLookup r

/-- Embedding of `get_order_from_afterbuy(order_number)` from `app.py`, as a function
of the two transport outcomes the order number can produce: first the
invoice-number lookup, then — only when it returned `None` — the
order-id lookup; any exception in the surrounding `try` is caught and
gives `None`, so every outcome maps to `Option` and the caller never
sees a raised error. -/
def get_order_from_afterbuy (invoiceRes orderIdRes : ApiResult) :
    Option OrderData :=
  match get_order_by_invoice_number invoiceRes with
  | some orderData => some orderData
  | none => get_order_by_id orderIdRes

/-- The `CallStatus` enumeration of `models.py`. -/
inductive CallStatus where
  | processing
  | completed
  | problem
  | handled
deriving Repr, DecidableEq

/-- Embedding of `format_order_number_for_speech` from `services.py`: the characters
of the order number joined by single spaces. -/
def format_order_number_for_speech (orderNumber : String) : String :=
  String.mk (orderNumber.toList.intersperse ' ')

/-- Embedding of `get_goodbye_message` from `services.py`. -/
def get_goodbye_message (language : String) : String :=
  if language == "de" then
    "Wir bedanken uns für Ihren Anruf und stehen bei weiteren Fragen zur Verfügung!"
  else
    "Thank you for calling. We are available for any further questions!"

/-- Embedding of `get_overdue_delivery_message` from `services.py`. -/
def get_overdue_delivery_message (language : String) : String :=
  if language == "de" then
    "Ihre Lieferung wird in Kürze erwartet. Ich verbinde Sie nun mit einem Mitarbeiter für weitere Informationen."
  else
    "I\x27m sorry, but your delivery has not arrived yet. I\x27m now connecting you with one of our staff members who can help you with this issue. Please hold."

/-- The fixed operator number `manager_phone` of `app.py`. -/
def manager_phone : String := "+4973929378421"

/-- Python rendering of an optional string inside an f-string: `None`
prints as `"None"`. -/
def pyShowOpt (v : Option String) : String :=
  match v with
  | none => "None"
  | some s => s

/-- A spoken text in a voice response: a literal string, or the status
narrative produced by `format_order_status_for_speech` with the
arguments it is called with (its interior is string formatting of the
order fields and is not needed by any claim). -/
inductive SpokenText where
  | lit (s : String)
  | statusNarrative (language : String) (orderData : OrderData)
      (datesInfo : DatesInfo)
deriving Repr, DecidableEq

/-- One TwiML verb appended to the voice response. -/
inductive Verb where
  | say (t : SpokenText)
  | gather (action : String)
  | recordMsg (action : String)
  | dial (number : String) (callerId : String)
  | pause (length : Nat)
  | hangup
deriving Repr, DecidableEq

/-- The `Order` row persisted by the engine (`models.Order`), with the
promised delivery date as an optional day ordinal. -/
structure SavedOrder where
  order_number : String
  status : String
  notes : String
  promised_delivery_date : Option Nat
deriving Repr, DecidableEq

/-- Observable outcome of one `handle_order_confirm` invocation: the
call-status update it performs (if any), the `Order` row it persists
(if any), and the response verbs in order. -/
structure ConfirmOutcome where
  statusUpdate : Option CallStatus
  savedOrder : Option SavedOrder
  verbs : List Verb
deriving Repr, DecidableEq

/-- The effective order date of `handle_order_confirm`: a falsy
(`None` or empty) `order_date` is replaced by the fixed default. -/
def effOrderDate (orderData : OrderData) : String :=
  match orderData.order_date with
  | some s => if s == "" then "18.10.2025 16:27:55" else s
  | none => "18.10.2025 16:27:55"

/-- The country passed to the estimator:
`order_data.get("buyer", {}).get("country", "DE")`. A present buyer
with a `None` country passes Python `None`, which selects the same
default `(8, 12)` row of the weeks table as `"DE"` does, so it is
modelled by `"DE"`. -/
def orderCountry (orderData : OrderData) : String :=
  match orderData.buyer with
  | none => "DE"
  | some b => b.country.getD "DE"

/-- The notes text persisted on the overdue path. -/
def overdueNotes (orderData : OrderData) : String :=
  "Order found: " ++ pyShowOpt orderData.invoice_number ++
    " - Delivery overdue, transferred to manager"

/-- The notes text persisted on the found, not-overdue path (a `None`
field prints as `"None"`, a missing buyer as `"Unknown"`). -/
def foundNotes (orderData : OrderData) : String :=
  "Order found: " ++ pyShowOpt orderData.invoice_number ++ " - " ++
    (match orderData.buyer with
     | none => "Unknown"
     | some b => pyShowOpt b.first_name) ++ " " ++
    (match orderData.buyer with
     | none => ""
     | some b => pyShowOpt b.last_name)

/-- The confirmation acknowledgement spoken before the lookup result. -/
def orderResponseText (language formatted : String) : String :=
  if language == "de" then
    "Vielen Dank! Ich habe Ihre Rechnungsnummer " ++ formatted ++
      " bestätigt. Ich prüfe den Status für Sie. Bitte warten Sie einen Moment."
  else
    "Thank you! I have confirmed your order number " ++ formatted ++
      ". I am checking the status for you. Please wait a moment."

/-- The not-found response of `handle_order_confirm`. -/
def notFoundText (language formatted : String) : String :=
  if language == "de" then
    "Entschuldigung, ich konnte keinen Auftrag mit der Nummer " ++ formatted ++
      " in unserem System finden. Bitte überprüfen Sie die Nummer oder kontaktieren Sie unseren Kundenservice."
  else
    "Sorry, I couldn\x27t find an order with number " ++ formatted ++
      " in our system. Please check the number or contact our customer service."

/-- The more-help prompt spoken after a status response. -/
def helpPromptText (language : String) : String :=
  if language == "de" then
    "Wenn Sie noch Fragen haben, drücken Sie 1 um eine Nachricht zu hinterlassen, oder drücken Sie 2 um mit einem Mitarbeiter verbunden zu werden."
  else
    "If you have any questions, press 1 to leave a message, or press 2 to speak to a staff member."

/-- The re-entry prompt after a rejected confirmation (digit 2). -/
def retryResponseText (language : String) : String :=
  if language == "de" then
    "Verstanden. Bitte geben Sie Ihre Rechnungsnummer erneut über die Tastatur ein. Drücken Sie die Raute-Taste # wenn Sie fertig sind."
  else
    "Understood. Please enter your order number again using the keypad. Press the hash key # when you are finished."

/-- The repeated-confirmation prompt after an unrecognized digit. -/
def invalidConfirmText (language formatted : String) : String :=
  if language == "de" then
    "Entschuldigung, ich habe Ihre Antwort nicht verstanden. Sie haben die Rechnungsnummer " ++
      formatted ++ " eingegeben. Ist das korrekt? Drücken Sie 1 für Ja oder 2 für Nein."
  else
    "Sorry, I didn\x27t understand your response. You have entered order number " ++
      formatted ++ ". Is this correct? Press 1 for Yes or 2 for No."

/-- The missing-order-number error of `handle_order_confirm`. -/
def emptyOrderNumberText (language : String) : String :=
  if language == "de" then
    "Entschuldigung, ich konnte die Rechnungsnummer nicht finden. Bitte versuchen Sie es erneut."
  else
    "Sorry, I couldn\x27t find the order number. Please try again."

/-- The generic handler-level error response. -/
def genericErrorText : String :=
  "Sorry, there was an error. Please try again later."

/-- Embedding of `handle_order_confirm` from `app.py` (webhook `/webhook/order_confirm`).
Inputs: the raw `Digits` form field, the caller number (language is
derived from it by `detect_language`), the most recent `order_input`
conversation row (`none` = no row, `some none` = row with null input),
the result of `get_order_from_afterbuy`, and the current-date ordinal for the
overdue check. The returned outcome records the call-status update, the
persisted `Order` row and the response verbs. -/
def handle_order_confirm (digits callerNumber : String)
    (lastOrderInput : Option (Option String)) (orderData : Option OrderData)
    (today : Nat) : ConfirmOutcome :=
  let confirmation := pyStrip digits
  let language := detect_language callerNumber
  match lastOrderInput with
  | none =>
    { statusUpdate := none, savedOrder := none
      verbs := [Verb.say (.lit genericErrorText), Verb.hangup] }
  | some orderInput =>
    let order_number := orderInput.getD ""
    if order_number == "" then
      { statusUpdate := none, savedOrder := none
        verbs := [Verb.say (.lit (emptyOrderNumberText language)), Verb.hangup] }
    else if confirmation == "1" then
      let formatted := format_order_number_for_speech order_number
      let orderResponse := orderResponseText language formatted
      match orderData with
      | some od =>
        let datesInfo :=
          calculate_production_delivery_dates (some (effOrderDate od))
            (orderCountry od)
        if check_delivery_overdue (.strVal datesInfo.promised_delivery_date)
            today then
          { statusUpdate := some .problem
            savedOrder := some
              { order_number := order_number
                status := "Overdue Delivery"
                notes := overdueNotes od
                promised_delivery_date :=
                  strptimeYMD datesInfo.promised_delivery_date }
            verbs := [Verb.say (.lit orderResponse),
              Verb.say (.lit (get_overdue_delivery_message language)),
              Verb.dial manager_phone callerNumber] }
        else
          { statusUpdate := none
            savedOrder := some
              { order_number := order_number
                status := "Found in AfterBuy"
                notes := foundNotes od
                promised_delivery_date :=
                  strptimeYMD datesInfo.promised_delivery_date }
            verbs := [Verb.say (.lit orderResponse), Verb.pause 2,
              Verb.say (.statusNarrative language od datesInfo),
              Verb.say (.lit (helpPromptText language)),
              Verb.gather "/webhook/voice_message",
              Verb.say (.lit (get_goodbye_message language)), Verb.hangup] }
      | none =>
        { statusUpdate := none
          savedOrder := some
            { order_number := order_number
              status := "Not Found"
              notes := "Order not found in AfterBuy system"
              promised_delivery_date := none }
          verbs := [Verb.say (.lit orderResponse), Verb.pause 2,
            Verb.say (.lit (notFoundText language formatted)),
            Verb.say (.lit (helpPromptText language)),
            Verb.gather "/webhook/voice_message",
            Verb.say (.lit (get_goodbye_message language)), Verb.hangup] }
    else if confirmation == "2" then
      { statusUpdate := none, savedOrder := none
        verbs := [Verb.say (.lit (retryResponseText language)),
          Verb.gather "/webhook/order",
          Verb.say (.lit (get_goodbye_message language)), Verb.hangup] }
    else
      let formatted := format_order_number_for_speech order_number
      { statusUpdate := none, savedOrder := none
        verbs := [Verb.say (.lit (invalidConfirmText language formatted)),
          Verb.gather "/webhook/order_confirm",
          Verb.say (.lit (get_goodbye_message language)), Verb.hangup] }

/-- Continuation chosen by a webhook handler: which input-gathering
action URL the response installs, a `<Record>` verb, or a `<Dial>`
transfer to the operator. -/
inductive NextAction where
  | gatherConsent
  | gatherOrderAvailability
  | gatherOrderNumber
  | gatherOrderConfirm
  | gatherVoiceMessage
  | dialManagerTransfer
  | recordVoiceMessage
deriving Repr, DecidableEq

/-- Call-status update and continuation decided by one webhook handler. -/
structure StepOutcome where
  statusUpdate : Option CallStatus
  next : NextAction
deriving Repr, DecidableEq

/-- Embedding of `handle_consent` from `app.py` (webhook `/webhook/consent`):
digits `1` and `2` both mark the call handled and move on to the
order-availability question; anything else re-prompts consent with no
status change. -/
def handle_consent (digits : String) : StepOutcome :=
  let d := pyStrip digits
  if d == "1" then { statusUpdate := some .handled, next := .gatherOrderAvailability }
  else if d == "2" then { statusUpdate := some .handled, next := .gatherOrderAvailability }
  else { statusUpdate := none, next := .gatherConsent }

/-- Embedding of `handle_order_availability` from `app.py`
(webhook `/webhook/order_availability`): digit `1` proceeds to number
entry, digit `2` marks the call handled and transfers to the operator,
anything else re-prompts. -/
def handle_order_availability (digits : String) : StepOutcome :=
  let d := pyStrip digits
  if d == "1" then { statusUpdate := none, next := .gatherOrderNumber }
  else if d == "2" then { statusUpdate := some .handled, next := .dialManagerTransfer }
  else { statusUpdate := none, next := .gatherOrderAvailability }

/-- Embedding of `handle_order` from `app.py` (webhook `/webhook/order`): nonempty
input is validated — invalid re-prompts number entry, valid proceeds to
confirmation; empty input marks the call handled and transfers to the
operator. -/
def handle_order (digits callerNumber : String) : StepOutcome :=
  let d := pyStrip digits
  let language := detect_language callerNumber
  if d != "" then
    if !(validate_order_number d language).1 then
      { statusUpdate := none, next := .gatherOrderNumber }
    else
      { statusUpdate := none, next := .gatherOrderConfirm }
  else
    { statusUpdate := some .handled, next := .dialManagerTransfer }

/-- Embedding of `handle_voice_message` from `app.py` (webhook `/webhook/voice_message`):
digit `1` starts a recording, digit `2` transfers to the operator,
anything else re-prompts; no status update on any branch. -/
def handle_voice_message (digits : String) : StepOutcome :=
  let d := pyStrip digits
  if d == "1" then { statusUpdate := none, next := .recordVoiceMessage }
  else if d == "2" then { statusUpdate := none, next := .dialManagerTransfer }
  else { statusUpdate := none, next := .gatherVoiceMessage }

/-- Call-status update performed by `handle_recorded` from `app.py`:
the call, when found, is marked completed. -/
def handle_recorded_status_update (callFound : Bool) : Option CallStatus :=
  if callFound then some .completed else none

/-- Status given to a call created by `handle_incoming_call`
(`create_or_get_call`). -/
def incoming_call_status : CallStatus := .processing

/-- One persisted `Conversation` row as seen by the email guard of
`handle_transcription`: its step tag and timestamp (seconds). -/
structure ConversationStep where
  step : String
  timestamp : Int
deriving Repr, DecidableEq

/-- The email-dispatch section of `handle_transcription` from `app.py`:
skip when an `email_sent` row exists for the call; skip when an
`email_attempt` or `email_sent` row lies within the 120-second
cool-down; otherwise, when transcription text and recording URL are
both present, attempt the send and append an `email_sent` row on
success (dispatch) or an `email_attempt` row on failure. Returns the
new conversation log and whether an email was dispatched. -/
def handle_transcription_email (log : List ConversationStep) (now : Int)
    (hasTextAndUrl sendSucceeds : Bool) :
    List ConversationStep × Bool :=
  if log.any (fun s => s.step == "email_sent") then (log, false)
  else if log.any (fun s =>
      (s.step == "email_attempt" || s.step == "email_sent") &&
        decide (now - 120 ≤ s.timestamp)) then (log, false)
  else if hasTextAndUrl then
    if sendSucceeds then (log ++ [⟨"email_sent", now⟩], true)
    else (log ++ [⟨"email_attempt", now⟩], false)
  else (log, false)

/-- One transcription callback: its arrival time, whether transcription
text and recording URL are available, and whether the SMTP send would
succeed. -/
structure TranscriptionEvent where
  time : Int
  hasTextAndUrl : Bool
  sendSucceeds : Bool

/-- A sequence of transcription callbacks applied to a conversation
log; returns the final log and the number of dispatched emails. -/
def run_transcriptions (log : List ConversationStep) :
    List TranscriptionEvent → List ConversationStep × Nat
  | [] => (log, 0)
  | e :: es =>
    let r := handle_transcription_email log e.time e.hasTextAndUrl e.sendSucceeds
    let rest := run_transcriptions r.1 es
    (rest.1, (if r.2 then 1 else 0) + rest.2)

/-- The promised delivery date denoted by a `promised_delivery_date`
value: present and parseable for strings, the date itself for dates,
absent otherwise. Used to state the overdue-check claim. -/
def promisedDateOrd (promised : PromisedValue) : Option Nat :=
  match promised with
  | .absent => none
  | .strVal s => strptimeYMD s
  | .dateVal d => some d
  | .otherVal => none

/-- C3: the overdue check returns true iff a promised delivery date is
present, parseable (as a date or a `YYYY-MM-DD` string), and strictly
before the current date; absent, unparseable, non-date, today, and
future promised dates all give false. -/
theorem C3_overdue_check_iff (promised : PromisedValue) (today : Nat) :
    check_delivery_overdue promised today = true ↔
      ∃ d, promisedDateOrd promised = some d ∧ d < today := by
  cases promised with
  | absent => simp [check_delivery_overdue, promisedDateOrd]
  | strVal s =>
    simp only [check_delivery_overdue, promisedDateOrd]
    cases h : strptimeYMD s with
    | none => simp
    | some d => simp [decide_eq_true_iff]
  | dateVal d => simp [check_delivery_overdue, promisedDateOrd, decide_eq_true_iff]
  | otherVal => simp [check_delivery_overdue, promisedDateOrd]

/-- C4: the estimate for order date text `18.10.2025 16:27:55` and
country `DE`: production start 25.10.2025 (order date plus 7 days),
production weeks 8 to 12, delivery date equal to production start plus
12 weeks plus 2 weeks (namely 31.01.2026), promised delivery date that
date in sortable form, and a window from 3 days before to 3 days
after. -/
theorem C4_estimate_de_concrete :
    calculate_production_delivery_dates (some "18.10.2025 16:27:55") "DE" =
      { order_date := some "18.10.2025"
        order_date_formatted := "18.10.2025"
        production_start_date := "25.10.2025"
        production_min_weeks := 8
        production_max_weeks := 12
        delivery_week := 5
        delivery_year := 2026
        delivery_date_start := "28.01.2026"
        delivery_date_end := "03.02.2026"
        promised_delivery_date := "2026-01-31" } ∧
    ymd2ord 2025 10 25 = ymd2ord 2025 10 18 + 7 ∧
    ymd2ord 2026 1 31 = ymd2ord 2025 10 25 + 7 * 12 + 7 * 2 ∧
    "2026-01-31" = formatYMD (ymd2ord 2026 1 31) ∧
    "28.01.2026" = formatDMY (ymd2ord 2026 1 31 - 3) ∧
    "03.02.2026" = formatDMY (ymd2ord 2026 1 31 + 3) := by
  decide

/-- C5: any order-date text the date parse rejects (including the
`None` and empty-string inputs) makes the estimator return the fixed
hardcoded fallback estimate, whose promised delivery date is
`2025-10-22`; the embedding is total, mirroring the catch-all that
prevents any exception from escaping. -/
theorem C5_unparseable_gives_fallback (orderDateStr : Option String)
    (countryCode : String)
    (h : parseOrderDateText orderDateStr = none) :
    calculate_production_delivery_dates orderDateStr countryCode =
        fallbackDatesInfo orderDateStr ∧
      (fallbackDatesInfo orderDateStr).promised_delivery_date = "2025-10-22" ∧
      parseOrderDateText none = none ∧
      parseOrderDateText (some "") = none := by
  refine ⟨?_, rfl, rfl, by decide⟩
  unfold calculate_production_delivery_dates
  rw [h]

/-- C5 witness: the garbage order-date text `not a date` is rejected by
the parse and produces the fallback estimate. -/
theorem C5_witness :
    parseOrderDateText (some "not a date") = none ∧
      calculate_production_delivery_dates (some "not a date") "DE" =
        fallbackDatesInfo (some "not a date") := by
  have h : parseOrderDateText (some "not a date") = none := by decide
  exact ⟨h, (C5_unparseable_gives_fallback (some "not a date") "DE" h).1⟩

/-- C10: for every input string and language the validator returns a
pair whose reason is one of the five fixed codes, with validity holding
exactly for reason `valid`; totality of the embedding mirrors that the
source returns on every path. -/
theorem C10_validator_shape (s language : String) :
    ((validate_order_number s language).2 = "too_short" ∨
     (validate_order_number s language).2 = "contains_non_order_words" ∨
     (validate_order_number s language).2 = "too_many_letters" ∨
     (validate_order_number s language).2 = "no_numbers_or_patterns" ∨
     (validate_order_number s language).2 = "valid") ∧
    ((validate_order_number s language).1 = true ↔
      (validate_order_number s language).2 = "valid") := by
  unfold validate_order_number validateStripped
  split
  · exact ⟨Or.inl rfl, by decide⟩
  · split
    · exact ⟨Or.inr (Or.inl rfl), by decide⟩
    · split
      · exact ⟨Or.inr (Or.inr (Or.inl rfl)), by decide⟩
      · split
        · exact ⟨Or.inr (Or.inr (Or.inr (Or.inl rfl))), by decide⟩
        · exact ⟨Or.inr (Or.inr (Or.inr (Or.inr rfl))), by decide⟩

/-- C8 counterexample: `lexingtonavenue` is rejected, but with reason
`contains_non_order_words` (the denylist words `lexington` and `avenue`
occur in it and the denylist check runs before the length check), not
`too_many_letters` as claimed. -/
theorem C8_counterexample :
    validate_order_number "lexingtonavenue" "de" =
        (false, "contains_non_order_words") ∧
      (validate_order_number "lexingtonavenue" "de").2 ≠ "too_many_letters" := by
  decide

/-- C8 amended: a purely alphabetic input longer than 10 characters
(after stripping and lowering) in which no denylisted word occurs is
rejected with reason `too_many_letters`; when a denylisted word does
occur, the earlier denylist check fires instead, as
`lexingtonavenue` shows. -/
theorem C8_too_many_letters (s language : String)
    (halpha : pyIsAlpha (pyLower (pyStrip s)) = true)
    (hlen : (pyLower (pyStrip s)).toList.length > 10)
    (hword : ∀ w ∈ non_order_words,
      containsSub w (pyLower (pyStrip s)) = false) :
    validate_order_number s language = (false, "too_many_letters") := by
  have hlistEq : (pyLower (pyStrip s)).toList =
      (pyStrip s).toList.map Char.toLower := rfl
  have hstriplen : (pyStrip s).toList.length > 10 := by
    have := hlen
    rw [hlistEq, List.length_map] at this
    exact this
  have htrig : nonOrderWordTriggers (pyLower (pyStrip s)) = false := by
    unfold nonOrderWordTriggers
    rw [List.any_eq_false]
    intro w hw
    simp [hword w hw]
  unfold validate_order_number
  have hcond : (s == "" || decide ((pyStrip s).toList.length < 2)) = false := by
    by_cases hs : s = ""
    · subst hs
      exact absurd hstriplen (by decide)
    · simp [hs]
      have e : (pyStrip s).length = (pyStrip s).toList.length := rfl
      omega
  rw [hcond]
  simp only [Bool.false_eq_true, if_false]
  unfold validateStripped
  rw [htrig]
  simp only [Bool.false_eq_true, if_false]
  have hlt : 10 < (pyLower (pyStrip s)).length := hlen
  simp [halpha, hlt]

/-- C8 witness: the 11-letter input `qqqqqqqqqqq` contains no
denylisted word and is rejected as `too_many_letters`. -/
theorem C8_witness :
    pyIsAlpha (pyLower (pyStrip "qqqqqqqqqqq")) = true ∧
      validate_order_number "qqqqqqqqqqq" "de" = (false, "too_many_letters") :=
  ⟨by decide, C8_too_many_letters "qqqqqqqqqqq" "de" (by decide) (by decide)
    (by decide)⟩

/-- C9 counterexample: for order date `15.09.2025` and country `DE` the
delivery date is 2025-12-29, which lies in ISO week 1 of ISO year 2026,
yet the estimator reports year 2025 — the `.year` attribute of the
delivery date, not its ISO year. -/
theorem C9_counterexample :
    (calculate_production_delivery_dates (some "15.09.2025") "DE").promised_delivery_date = "2025-12-29" ∧
      (calculate_production_delivery_dates (some "15.09.2025") "DE").delivery_week = 1 ∧
      (calculate_production_delivery_dates (some "15.09.2025") "DE").delivery_year = 2025 ∧
      isocalendarOf (ymd2ord 2025 12 29) = (2026, 1) ∧
      (2025 : Nat) ≠ 2026 := by
  decide

/-- C9 amended: for every parseable order date (within the supported
date range) the spoken delivery week is the ISO calendar week of the
computed delivery date, but the spoken year is the calendar-year
attribute of the delivery date, which for late-December delivery dates falling
in ISO week 1 of the following year differs from the ISO year. -/
theorem C9_week_iso_year_calendar (orderDateStr : Option String)
    (countryCode : String) (d : Nat)
    (hparse : parseOrderDateText orderDateStr = some d)
    (hrange : d + 7 + 7 * (production_weeks_table countryCode).2 + 14 + 3 ≤
      maxDateOrd) :
    (calculate_production_delivery_dates orderDateStr countryCode).delivery_week =
      (isocalendarOf
        (d + 7 + 7 * (production_weeks_table countryCode).2 + 14)).2 ∧
    (calculate_production_delivery_dates orderDateStr countryCode).delivery_year =
      yearOfOrd (d + 7 + 7 * (production_weeks_table countryCode).2 + 14) := by
  unfold calculate_production_delivery_dates
  rw [hparse]
  simp only [hrange, if_pos, decide_eq_true_eq]
  constructor <;> trivial

/-- C9 witness: the amended statement evaluated at order date
`18.10.2025` and country `DE` (delivery ordinal 739647, ISO week 5,
year 2026). -/
theorem C9_witness :
    (calculate_production_delivery_dates (some "18.10.2025") "DE").delivery_week = (isocalendarOf 739647).2 ∧
      (calculate_production_delivery_dates (some "18.10.2025") "DE").delivery_year = yearOfOrd 739647 :=
  C9_week_iso_year_calendar (some "18.10.2025") "DE" 739542 (by decide)
    (by decide)

/-- A representative parsed AfterBuy order (the spec example: invoice
131629, order date 18.10.2025, buyer in Germany). -/
def sampleOrder : OrderData :=
  { order_id := some "131629"
    invoice_number := some "131629"
    order_date := some "18.10.2025 16:27:55"
    memo := none
    buyer := some
      { first_name := some "Rayan", last_name := some "Daouk"
        country := some "DE" }
    payment := some
      { payment_date := some "20.10.2025"
        already_paid := some "1680,00", full_amount := some "11200,00" } }

/-- C2: the resolution pipeline queries by invoice number first and by
order id only when that returns nothing; the first success wins; every
transport failure (request exception, non-200 status, empty body,
malformed XML, call status other than `Success`, no orders) maps to
`none` — the embedding is total, mirroring the catch-all in
`get_order_from_afterbuy` — and a `none` pipeline result makes
`handle_order_confirm` produce exactly the not-found outcome, so the
caller experience is identical across all failure modes. -/
theorem C2_lookup_pipeline :
    (∀ invoiceRes orderIdRes orderData,
      get_order_by_invoice_number invoiceRes = some orderData →
        get_order_from_afterbuy invoiceRes orderIdRes = some orderData) ∧
    (∀ invoiceRes orderIdRes,
      get_order_by_invoice_number invoiceRes = none →
        get_order_from_afterbuy invoiceRes orderIdRes =
          get_order_by_id orderIdRes) ∧
    clientLookup .requestException = none ∧
    (∀ statusCode body, statusCode ≠ 200 →
      clientLookup (.httpResponse statusCode body) = none) ∧
    clientLookup (.httpResponse 200 none) = none ∧
    clientLookup (.httpResponse 200 (some .malformed)) = none ∧
    (∀ callStatus orders, callStatus ≠ some "Success" →
      clientLookup (.httpResponse 200 (some (.wellFormed callStatus orders))) =
        none) ∧
    (∀ callStatus,
      clientLookup (.httpResponse 200 (some (.wellFormed callStatus []))) =
        none) ∧
    (∀ digits caller lastOrderInput today invoiceRes orderIdRes,
      get_order_from_afterbuy invoiceRes orderIdRes = none →
        handle_order_confirm digits caller lastOrderInput
            (get_order_from_afterbuy invoiceRes orderIdRes) today =
          handle_order_confirm digits caller lastOrderInput none today) ∧
    (∀ caller num today, num ≠ "" →
      (handle_order_confirm "1" caller (some (some num)) none today).verbs =
        [Verb.say (.lit (orderResponseText (detect_language caller)
            (format_order_number_for_speech num))), Verb.pause 2,
          Verb.say (.lit (notFoundText (detect_language caller)
            (format_order_number_for_speech num))),
          Verb.say (.lit (helpPromptText (detect_language caller))),
          Verb.gather "/webhook/voice_message",
          Verb.say (.lit (get_goodbye_message (detect_language caller))),
          Verb.hangup]) := by
  refine ⟨?_, ?_, rfl, ?_, rfl, rfl, ?_, ?_, ?_, ?_⟩
  · intro invoiceRes orderIdRes orderData h
    unfold get_order_from_afterbuy
    rw [h]
  · intro invoiceRes orderIdRes h
    unfold get_order_from_afterbuy
    rw [h]
  · intro statusCode body h
    unfold clientLookup
    simp [h]
  · intro callStatus orders h
    unfold clientLookup parse_order_response
    simp [h]
  · intro callStatus
    unfold clientLookup parse_order_response
    by_cases h : callStatus = some "Success" <;> simp [h]
  · intro digits caller lastOrderInput today invoiceRes orderIdRes h
    rw [h]
  · intro caller num today hnum
    unfold handle_order_confirm
    have h1 : (num == "") = false := by simp [hnum]
    simp only [h1, Bool.false_eq_true, if_false, Option.getD_some]
    rfl

/-- C2 witness: a successful invoice lookup wins even when the order-id
transport would fail, and a request exception maps to a `None` result,
with the not-found spoken outcome for an arbitrary caller. -/
theorem C2_witness :
    get_order_from_afterbuy
        (.httpResponse 200 (some (.wellFormed (some "Success") [sampleOrder])))
        .requestException = some sampleOrder ∧
      clientLookup (.httpResponse 500 none) = none ∧
      (handle_order_confirm "1" "+4915112345678" (some (some "131629")) none
          739647).verbs =
        [Verb.say (.lit (orderResponseText "de"
            (format_order_number_for_speech "131629"))), Verb.pause 2,
          Verb.say (.lit (notFoundText "de"
            (format_order_number_for_speech "131629"))),
          Verb.say (.lit (helpPromptText "de")),
          Verb.gather "/webhook/voice_message",
          Verb.say (.lit (get_goodbye_message "de")), Verb.hangup] := by
  refine ⟨C2_lookup_pipeline.1 _ _ _ (by decide),
    C2_lookup_pipeline.2.2.2.1 500 none (by decide), ?_⟩
  have h := C2_lookup_pipeline.2.2.2.2.2.2.2.2.2 "+4915112345678" "131629"
    739647 (by decide)
  simpa using h

/-- Evaluation of the confirmed, found, overdue branch of
`handle_order_confirm`. -/
theorem handle_confirm_overdue_eq (caller num : String) (od : OrderData)
    (today : Nat) (hnum : num ≠ "")
    (hov : check_delivery_overdue
      (.strVal (calculate_production_delivery_dates (some (effOrderDate od))
        (orderCountry od)).promised_delivery_date) today = true) :
    handle_order_confirm "1" caller (some (some num)) (some od) today =
      { statusUpdate := some .problem
        savedOrder := some
          { order_number := num
            status := "Overdue Delivery"
            notes := overdueNotes od
            promised_delivery_date :=
              strptimeYMD (calculate_production_delivery_dates
                (some (effOrderDate od))
                (orderCountry od)).promised_delivery_date }
        verbs := [Verb.say (.lit (orderResponseText (detect_language caller)
            (format_order_number_for_speech num))),
          Verb.say (.lit (get_overdue_delivery_message
            (detect_language caller))),
          Verb.dial manager_phone caller] } := by
  have hbeq : (num == "") = false := by simp [hnum]
  unfold handle_order_confirm
  simp only [Option.getD_some, hbeq, Bool.false_eq_true, if_false, hov]
  rfl

/-- Evaluation of the confirmed, found, not-overdue branch of
`handle_order_confirm`. -/
theorem handle_confirm_found_eq (caller num : String) (od : OrderData)
    (today : Nat) (hnum : num ≠ "")
    (hov : check_delivery_overdue
      (.strVal (calculate_production_delivery_dates (some (effOrderDate od))
        (orderCountry od)).promised_delivery_date) today = false) :
    handle_order_confirm "1" caller (some (some num)) (some od) today =
      { statusUpdate := none
        savedOrder := some
          { order_number := num
            status := "Found in AfterBuy"
            notes := foundNotes od
            promised_delivery_date :=
              strptimeYMD (calculate_production_delivery_dates
                (some (effOrderDate od))
                (orderCountry od)).promised_delivery_date }
        verbs := [Verb.say (.lit (orderResponseText (detect_language caller)
            (format_order_number_for_speech num))), Verb.pause 2,
          Verb.say (.statusNarrative (detect_language caller) od
            (calculate_production_delivery_dates (some (effOrderDate od))
              (orderCountry od))),
          Verb.say (.lit (helpPromptText (detect_language caller))),
          Verb.gather "/webhook/voice_message",
          Verb.say (.lit (get_goodbye_message (detect_language caller))),
          Verb.hangup] } := by
  have hbeq : (num == "") = false := by simp [hnum]
  unfold handle_order_confirm
  simp only [Option.getD_some, hbeq, Bool.false_eq_true, if_false, hov]
  rfl

/-- A `problem` status update out of `handle_order_confirm` happens only
on the confirmed, found, overdue branch. -/
theorem confirm_problem_requires_overdue (digits caller : String)
    (lastOrderInput : Option (Option String)) (orderData : Option OrderData)
    (today : Nat)
    (h : (handle_order_confirm digits caller lastOrderInput orderData
      today).statusUpdate = some CallStatus.problem) :
    pyStrip digits = "1" ∧ ∃ od, orderData = some od ∧
      check_delivery_overdue
        (.strVal (calculate_production_delivery_dates (some (effOrderDate od))
          (orderCountry od)).promised_delivery_date) today = true := by
  unfold handle_order_confirm at h
  cases lastOrderInput with
  | none => simp at h
  | some orderInput =>
    dsimp only at h
    by_cases hempty : (orderInput.getD "" == "") = true
    · rw [if_pos hempty] at h
      simp at h
    · rw [if_neg hempty] at h
      by_cases hconf : (pyStrip digits == "1") = true
      · rw [if_pos hconf] at h
        cases orderData with
        | none => simp at h
        | some od =>
          dsimp only at h
          by_cases hov : check_delivery_overdue
              (.strVal (calculate_production_delivery_dates
                (some (effOrderDate od))
                (orderCountry od)).promised_delivery_date) today = true
          · exact ⟨by simpa using hconf, od, rfl, hov⟩
          · rw [if_neg hov] at h
            simp at h
      · rw [if_neg hconf] at h
        by_cases hc2 : (pyStrip digits == "2") = true
        · rw [if_pos hc2] at h
          simp at h
        · rw [if_neg hc2] at h
          simp at h

/-- C1: when the confirmed order is found and its computed promised
delivery date lies strictly in the past, `handle_order_confirm` marks
the call `problem`, persists an `Order` row with status
`Overdue Delivery` carrying that promised date, and responds with a
dial to the fixed operator number and no status narrative; moreover a
`problem` status arises from no other branch of the order-confirmation
handler and from no other webhook handler. -/
theorem C1_overdue_problem_path (caller num : String) (od : OrderData)
    (today : Nat) (hnum : num ≠ "")
    (hov : check_delivery_overdue
      (.strVal (calculate_production_delivery_dates (some (effOrderDate od))
        (orderCountry od)).promised_delivery_date) today = true) :
    (handle_order_confirm "1" caller (some (some num)) (some od)
        today).statusUpdate = some CallStatus.problem ∧
    (∃ d, strptimeYMD (calculate_production_delivery_dates
          (some (effOrderDate od)) (orderCountry od)).promised_delivery_date =
        some d ∧ d < today ∧
      (handle_order_confirm "1" caller (some (some num)) (some od)
          today).savedOrder = some
        { order_number := num
          status := "Overdue Delivery"
          notes := overdueNotes od
          promised_delivery_date := some d }) ∧
    (handle_order_confirm "1" caller (some (some num)) (some od)
        today).verbs =
      [Verb.say (.lit (orderResponseText (detect_language caller)
          (format_order_number_for_speech num))),
        Verb.say (.lit (get_overdue_delivery_message (detect_language caller))),
        Verb.dial manager_phone caller] ∧
    (∀ l o di, Verb.say (.statusNarrative l o di) ∉
      (handle_order_confirm "1" caller (some (some num)) (some od)
        today).verbs) ∧
    (∀ dg ca loi odat t,
      (handle_order_confirm dg ca loi odat t).statusUpdate =
          some CallStatus.problem →
        pyStrip dg = "1" ∧ ∃ o, odat = some o ∧
          check_delivery_overdue
            (.strVal (calculate_production_delivery_dates
              (some (effOrderDate o))
              (orderCountry o)).promised_delivery_date) t = true) ∧
    (∀ dg, (handle_consent dg).statusUpdate ≠ some CallStatus.problem) ∧
    (∀ dg, (handle_order_availability dg).statusUpdate ≠
      some CallStatus.problem) ∧
    (∀ dg ca, (handle_order dg ca).statusUpdate ≠ some CallStatus.problem) ∧
    (∀ dg, (handle_voice_message dg).statusUpdate ≠
      some CallStatus.problem) ∧
    (∀ b, handle_recorded_status_update b ≠ some CallStatus.problem) ∧
    incoming_call_status ≠ CallStatus.problem := by
  have heval := handle_confirm_overdue_eq caller num od today hnum hov
  obtain ⟨d, hd, hlt⟩ : ∃ d,
      strptimeYMD (calculate_production_delivery_dates
        (some (effOrderDate od)) (orderCountry od)).promised_delivery_date =
        some d ∧ d < today := by
    revert hov
    unfold check_delivery_overdue
    intro hov
    dsimp only at hov
    cases hp : strptimeYMD (calculate_production_delivery_dates
        (some (effOrderDate od)) (orderCountry od)).promised_delivery_date with
    | none =>
      rw [hp] at hov
      simp at hov
    | some dd =>
      rw [hp] at hov
      exact ⟨dd, rfl, by simpa using hov⟩
  refine ⟨by rw [heval], ⟨d, hd, hlt, by rw [heval]; simp only [hd]⟩,
    by rw [heval], ?_, ?_, ?_, ?_, ?_, ?_, ?_, by decide⟩
  · intro l o di
    rw [heval]
    simp
  · intro dg ca loi odat t h
    exact confirm_problem_requires_overdue dg ca loi odat t h
  · intro dg
    unfold handle_consent
    dsimp only
    split
    · simp
    · split <;> simp
  · intro dg
    unfold handle_order_availability
    dsimp only
    split
    · simp
    · split <;> simp
  · intro dg ca
    unfold handle_order
    dsimp only
    split
    · split <;> simp
    · simp
  · intro dg
    unfold handle_voice_message
    dsimp only
    split
    · simp
    · split <;> simp
  · intro b
    unfold handle_recorded_status_update
    split <;> simp

/-- C1 witness: the sample order (promised date 2026-01-31) checked on
2026-02-01 is overdue, and the handler marks the call `problem`. -/
theorem C1_witness :
    (handle_order_confirm "1" "+4915112345679" (some (some "131629"))
        (some sampleOrder) 739648).statusUpdate = some CallStatus.problem :=
  (C1_overdue_problem_path "+4915112345679" "131629" sampleOrder 739648
    (by decide) (by decide)).1

/-- The found-order family of the end-to-end scenario: order date
`18.10.2025 16:27:55` and buyer country `DE` (the spec example), with
the identification and name fields left free. -/
def c6Order (oid inv memo fn ln : Option String)
    (pay : Option PaymentData) : OrderData :=
  { order_id := oid
    invoice_number := inv
    order_date := some "18.10.2025 16:27:55"
    memo := memo
    buyer := some { first_name := fn, last_name := ln, country := some "DE" }
    payment := pay }

/-- C6 counterexample: on the confirmed, found, not-overdue path the
persisted `Order` status is the literal `Found in AfterBuy`, not
`Found` as the claim states. -/
theorem C6_counterexample :
    ((handle_order_confirm "1" "+4915112345678" (some (some "131629"))
        (some sampleOrder) 739647).savedOrder.map SavedOrder.status) =
      some "Found in AfterBuy" ∧
    ((handle_order_confirm "1" "+4915112345678" (some (some "131629"))
        (some sampleOrder) 739647).savedOrder.map SavedOrder.status) ≠
      some "Found" := by
  decide

/-- C6 amended: in the confirmed, found, not-overdue scenario (consent
`1`, availability `1`, valid number `131629`, confirmation `1`, lookup
returning a found order with order date 18.10.2025 and country DE, not
overdue), the engine speaks the full status narrative, persists an
`Order` row with status `Found in AfterBuy` (the claim said `Found`)
and the non-null promised delivery date 2026-01-31, performs no status
update, and the response gathers a digit for the voice-message /
operator choice. -/
theorem C6_found_scenario (caller : String) (oid inv memo fn ln : Option String)
    (pay : Option PaymentData) (today : Nat)
    (hnotov : check_delivery_overdue (.strVal "2026-01-31") today = false) :
    validate_order_number "131629" (detect_language caller) =
      (true, "valid") ∧
    handle_consent "1" =
      { statusUpdate := some .handled, next := .gatherOrderAvailability } ∧
    handle_order_availability "1" =
      { statusUpdate := none, next := .gatherOrderNumber } ∧
    handle_order "131629" caller =
      { statusUpdate := none, next := .gatherOrderConfirm } ∧
    (calculate_production_delivery_dates (some "18.10.2025 16:27:55") "DE").promised_delivery_date = "2026-01-31" ∧
    (handle_order_confirm "1" caller (some (some "131629"))
        (some (c6Order oid inv memo fn ln pay)) today).savedOrder =
      some { order_number := "131629"
             status := "Found in AfterBuy"
             notes := foundNotes (c6Order oid inv memo fn ln pay)
             promised_delivery_date := some 739647 } ∧
    Verb.say (.statusNarrative (detect_language caller)
        (c6Order oid inv memo fn ln pay)
        (calculate_production_delivery_dates (some "18.10.2025 16:27:55")
          "DE")) ∈
      (handle_order_confirm "1" caller (some (some "131629"))
        (some (c6Order oid inv memo fn ln pay)) today).verbs ∧
    Verb.gather "/webhook/voice_message" ∈
      (handle_order_confirm "1" caller (some (some "131629"))
        (some (c6Order oid inv memo fn ln pay)) today).verbs ∧
    (handle_order_confirm "1" caller (some (some "131629"))
        (some (c6Order oid inv memo fn ln pay)) today).statusUpdate = none := by
  have e1 : effOrderDate (c6Order oid inv memo fn ln pay) =
    "18.10.2025 16:27:55" := rfl
  have e2 : orderCountry (c6Order oid inv memo fn ln pay) = "DE" := rfl
  have hprom : (calculate_production_delivery_dates
      (some "18.10.2025 16:27:55") "DE").promised_delivery_date =
      "2026-01-31" := by decide
  have hov : check_delivery_overdue
      (.strVal (calculate_production_delivery_dates
        (some (effOrderDate (c6Order oid inv memo fn ln pay)))
        (orderCountry (c6Order oid inv memo fn ln pay))).promised_delivery_date)
      today = false := by
    rw [e1, e2, hprom]
    exact hnotov
  have heval := handle_confirm_found_eq caller "131629"
    (c6Order oid inv memo fn ln pay) today (by decide) hov
  rw [e1, e2] at heval
  have hymd : strptimeYMD (calculate_production_delivery_dates
      (some "18.10.2025 16:27:55") "DE").promised_delivery_date =
      some 739647 := by decide
  refine ⟨rfl, rfl, rfl, rfl, hprom, ?_, ?_, ?_, by rw [heval]⟩
  · rw [heval, hymd]
  · rw [heval]
    simp
  · rw [heval]
    simp

/-- C6 witness: the scenario evaluated at a concrete caller, name
fields, and the not-overdue current date 2026-01-31. -/
theorem C6_witness :
    (handle_order_confirm "1" "+4930123456" (some (some "131629"))
        (some (c6Order (some "131629") (some "131629") none (some "Rayan")
          (some "Daouk") none)) 739647).savedOrder =
      some { order_number := "131629"
             status := "Found in AfterBuy"
             notes := foundNotes (c6Order (some "131629") (some "131629") none
               (some "Rayan") (some "Daouk") none)
             promised_delivery_date := some 739647 } :=
  (C6_found_scenario "+4930123456" (some "131629") (some "131629") none
    (some "Rayan") (some "Daouk") none 739647 (by decide)).2.2.2.2.2.1

/-- Once an `email_sent` row exists, the transcription handler changes
nothing and dispatches nothing. -/
theorem email_guard_skip_sent (log : List ConversationStep) (now : Int)
    (a b : Bool)
    (h : (log.any fun s => s.step == "email_sent") = true) :
    handle_transcription_email log now a b = (log, false) := by
  unfold handle_transcription_email
  rw [h]
  simp

/-- A dispatch leaves an `email_sent` row in the resulting log. -/
theorem dispatch_implies_sent (log : List ConversationStep) (now : Int)
    (a b : Bool)
    (h : (handle_transcription_email log now a b).2 = true) :
    ((handle_transcription_email log now a b).1.any
      fun s => s.step == "email_sent") = true := by
  unfold handle_transcription_email at h ⊢
  by_cases h1 : (log.any fun s => s.step == "email_sent") = true
  · rw [h1] at h
    simp at h
  · rw [Bool.not_eq_true] at h1
    rw [h1] at h ⊢
    simp only [Bool.false_eq_true, if_false] at h ⊢
    by_cases h2 : (log.any fun s =>
        (s.step == "email_attempt" || s.step == "email_sent") &&
          decide (now - 120 ≤ s.timestamp)) = true
    · rw [h2] at h
      simp at h
    · rw [Bool.not_eq_true] at h2
      rw [h2] at h ⊢
      simp only [Bool.false_eq_true, if_false] at h ⊢
      cases a with
      | false => simp at h
      | true =>
        cases b with
        | false => simp at h
        | true => simp [List.any_append]

/-- With an `email_sent` row present, no later sequence of
transcription callbacks dispatches anything. -/
theorem run_zero_of_sent (events : List TranscriptionEvent) :
    ∀ log : List ConversationStep,
      (log.any fun s => s.step == "email_sent") = true →
        (run_transcriptions log events).2 = 0 := by
  induction events with
  | nil => intro log h; rfl
  | cons e es ih =>
    intro log h
    unfold run_transcriptions
    rw [email_guard_skip_sent log e.time e.hasTextAndUrl e.sendSucceeds h]
    simpa using ih log h

/-- C7: once an `email_sent` conversation row exists for the call,
every later transcription callback skips sending and changes nothing;
while an `email_attempt` or `email_sent` row lies within the 120-second
cool-down window, a callback also skips sending; and over any sequence
of transcription callbacks the email is dispatched at most once. -/
theorem C7_email_at_most_once :
    (∀ (log : List ConversationStep) (now : Int) (a b : Bool),
      (∃ st ∈ log, st.step = "email_sent") →
        handle_transcription_email log now a b = (log, false)) ∧
    (∀ (log : List ConversationStep) (now : Int) (a b : Bool),
      (∃ st ∈ log, (st.step = "email_attempt" ∨ st.step = "email_sent") ∧
          now - 120 ≤ st.timestamp) →
        (handle_transcription_email log now a b).2 = false) ∧
    (∀ (log : List ConversationStep) (events : List TranscriptionEvent),
      (run_transcriptions log events).2 ≤ 1) := by
  refine ⟨?_, ?_, ?_⟩
  · intro log now a b ⟨st, hmem, hstep⟩
    exact email_guard_skip_sent log now a b
      (List.any_eq_true.mpr ⟨st, hmem, by simp [hstep]⟩)
  · intro log now a b ⟨st, hmem, hstep, htime⟩
    by_cases h1 : (log.any fun s => s.step == "email_sent") = true
    · rw [email_guard_skip_sent log now a b h1]
    · have h2 : (log.any fun s =>
          (s.step == "email_attempt" || s.step == "email_sent") &&
            decide (now - 120 ≤ s.timestamp)) = true := by
        refine List.any_eq_true.mpr ⟨st, hmem, ?_⟩
        rcases hstep with hs | hs <;> simp [hs, htime]
      unfold handle_transcription_email
      rw [Bool.not_eq_true] at h1
      rw [h1, h2]
      simp
  · intro log events
    induction events generalizing log with
    | nil => simp [run_transcriptions]
    | cons e es ih =>
      unfold run_transcriptions
      dsimp only
      by_cases hd : (handle_transcription_email log e.time e.hasTextAndUrl
          e.sendSucceeds).2 = true
      · rw [hd]
        have hz := run_zero_of_sent es _
          (dispatch_implies_sent log e.time e.hasTextAndUrl e.sendSucceeds hd)
        rw [hz]
        simp
      · rw [Bool.not_eq_true] at hd
        rw [hd]
        simpa using ih (handle_transcription_email log e.time e.hasTextAndUrl
          e.sendSucceeds).1

/-- C7 witness: a prior `email_sent` row blocks a later callback, a
60-second-old `email_attempt` row blocks a retry, and three rapid
callbacks dispatch at most one email. -/
theorem C7_witness :
    handle_transcription_email [⟨"email_sent", 0⟩] 1000 true true =
        ([⟨"email_sent", 0⟩], false) ∧
      (handle_transcription_email [⟨"email_attempt", 940⟩] 1000 true true).2 =
        false ∧
      (run_transcriptions []
        [⟨0, true, true⟩, ⟨5, true, true⟩, ⟨10, true, true⟩]).2 ≤ 1 :=
  ⟨C7_email_at_most_once.1 [⟨"email_sent", 0⟩] 1000 true true
      ⟨⟨"email_sent", 0⟩, by simp, rfl⟩,
    C7_email_at_most_once.2.1 [⟨"email_attempt", 940⟩] 1000 true true
      ⟨⟨"email_attempt", 940⟩, by simp, Or.inl rfl, by norm_num⟩,
    C7_email_at_most_once.2.2 []
      [⟨0, true, true⟩, ⟨5, true, true⟩, ⟨10, true, true⟩]⟩
